import Mathlib

/-!
Shallow embedding of src/tarification.py, a decoder/encoder for the
Civilization VI save-file container format.

Bytes are modelled as natural numbers, byte strings as lists of naturals.
A Python BinaryIO input buffer is modelled as a stream record holding the
immutable data, the current position, and the list of file writes the
code has performed (the source opens and writes debug dump files from
inside the element decoder).  Python functions that can raise are
modelled with Except: each raisable condition of the source (assert,
raise, attribute/name errors on buggy lines, exit(1)) is mapped to an
explicit error value.  Unbounded loops and unbounded recursion are
modelled with an explicit fuel parameter; running out of fuel is the
distinct error fuelOut, used to reason about nontermination.
-/

namespace Tarification

abbrev Byte := Nat

/-- Model of the BinaryIO input buffer plus the file writes performed. -/
structure Stream where
  data : List Byte
  pos : Nat
  writes : List (String × List Byte)

/-- Python file.read(n): returns up to n bytes and advances the position
by the number of bytes actually returned. -/
def Stream.read (s : Stream) (n : Nat) : List Byte × Stream :=
  let b := (s.data.drop s.pos).take n
  (b, { s with pos := s.pos + b.length })

/-- Python file.seek(p). -/
def Stream.seek (s : Stream) (p : Nat) : Stream :=
  { s with pos := p }

/-- Python int.from_bytes(b, "little", signed=False). -/
def fromLE (b : List Byte) : Nat :=
  b.foldr (fun x acc => x + 256 * acc) 0

/-- Little-endian 4-byte encoding, x.to_bytes(4, "little") for x < 2^32. -/
def toLE4 (x : Nat) : List Byte :=
  [x % 256, x / 256 % 256, x / 65536 % 256, x / 16777216 % 256]

/-- Little-endian 3-byte encoding, x.to_bytes(3, "little") for x < 2^24. -/
def toLE3 (x : Nat) : List Byte :=
  [x % 256, x / 256 % 256, x / 65536 % 256]

/-- Source _parse_int32: read 4 bytes, little-endian unsigned. -/
def _parse_int32 (s : Stream) : Nat × Stream :=
  let r := s.read 4
  (fromLE r.1, r.2)

/-- Errors a run of the Python source can raise.  fuelOut is the
model-only marker for a computation that needs more fuel (used to express
nontermination: a loop that diverges returns fuelOut for every fuel). -/
inductive PyErr where
  | assertionError
  | runtimeError
  | typeError
  | indexError
  | systemExit
  | overflowError
  | nameError (n : String)
  | attributeError (n : String)
  | fuelOut
deriving DecidableEq, Repr

structure Marker where
  name : List Byte
  type_ : Nat
deriving DecidableEq, Repr

/-- Source Marker.serialize, line 89: the body is
return name + _to_bytes(self.type_) where the bare identifier name is an
unbound global, so every call raises NameError. -/
def Marker.serialize (_m : Marker) : Except PyErr (List Byte) :=
  .error (.nameError "name")

structure ByteData where
  b : List Byte
  b_per_element : Nat
deriving DecidableEq, Repr

/-- Source ByteData.serialize, line 136: the body reads the bare
identifiers b and b_per_element (not self.b / self.b_per_element), so
every call raises NameError on b. -/
def ByteData.serialize (_bd : ByteData) : Except PyErr (List Byte) :=
  .error (.nameError "b")

/-- Source _parse_marker.  The name argument models the keyword-only
name parameter; Python replaces a falsy value (None or an empty bytes
object) by a fresh 4-byte read.  An empty name signals end of stream
and yields no marker. -/
def _parse_marker (nameArg : Option (List Byte)) (s : Stream) :
    Option Marker × Stream :=
  let r :=
    match nameArg with
    | some nb => if nb = [] then s.read 4 else (nb, s)
    | none => s.read 4
  if r.1 = [] then (none, r.2)
  else
    let ri := _parse_int32 r.2
    (some ⟨r.1, ri.1⟩, ri.2)

/-- Result of _read_byte_data: either a ByteData or (in the zero-length
branch) the raw retained header bytes. -/
inductive ByteDataResult where
  | byteData (bd : ByteData)
  | raw (b : List Byte)
deriving DecidableEq, Repr

/-- Source _read_byte_data (lines 348-363).  Note on the l = 0 branch:
line 358 constructs RuntimeError(...) when the four supposed-zero bytes
are not all zero but never raises it, so that branch always succeeds. -/
def _read_byte_data (s : Stream) : Except PyErr (ByteDataResult × Stream) :=
  let rl := s.read 3
  let l := fromLE rl.1
  let rh := rl.2.read 1
  if rh.1 = [0x21] then
    let rb := _parse_int32 rh.2
    let rc := rb.2.read (l * rb.1)
    .ok (.byteData ⟨rc.1, rb.1⟩, rc.2)
  else if l = 0 then
    let rp := rh.2.read 4
    let rz := rp.2.read 4
    .ok (.raw (toLE3 l ++ rh.1 ++ rp.1), rz.2)
  else
    .error .runtimeError

/-- In-memory element tree.  Child lists of the two array variants hold
options because the source appends the raw result of parse_element, which
can be None, to the child list. -/
inductive GameElement where
  | intElement (marker : Marker) (value : Nat)
  | unknownString (marker : Marker) (header : List Byte)
  | stringElement (marker : Marker) (content : ByteData)
  | utfString (marker : Marker) (content : ByteData)
  | unknown16 (marker : Marker) (content : List Byte)
  | timestamp (marker : Marker) (epoch : Nat)
  | unknown12 (marker : Marker) (content : List Byte)
  | boolean (marker : Marker) (value : Nat)
  | compressed (marker : Marker) (header : List Byte)
      (inflated_size : Nat) (chunks : List (List Byte))
  | array0A (marker : Marker) (elements : List (Option GameElement))
  | array0B (marker : Marker) (header : List Byte)
      (content : List (Option GameElement))

/-- Chunk-splitting loop of the type 0x18 case of parse_element
(lines 444-452): slice 4-byte little-endian chunk lengths and chunk
bodies out of b starting at index i, until the remainder is exactly
00 00 FF FF or the end of b is passed; if fewer than 4 bytes remain for
a length the source calls exit(1). -/
def chunk_loop : Nat → List Byte → Nat → Except PyErr (List (List Byte))
  | 0, _, _ => .error .fuelOut
  | fuel + 1, b, i =>
    if i < b.length ∧ b.drop i ≠ [0x00, 0x00, 0xFF, 0xFF] then
      if b.length - i < 4 then .error .systemExit
      else
        let chunk_len := fromLE ((b.drop i).take 4)
        let chunk := (b.drop (i + 4)).take chunk_len
        match chunk_loop fuel b (i + 4 + chunk_len) with
        | .error e => .error e
        | .ok rest => .ok (chunk :: rest)
    else
      .ok []

/-- parse_element, case Marker(type_=0x1), lines 369-379: 8 padding
bytes that must all be zero, then a 32-bit value that must be 0 or 1;
on either mismatch the source prints a report and returns None. -/
def parse_bool_body (m : Marker) (s : Stream) :
    Except PyErr (Option GameElement × Stream) :=
  let r8 := s.read 8
  if r8.1 ≠ List.replicate 8 0 then .ok (none, r8.2)
  else
    let rv := _parse_int32 r8.2
    if rv.1 > 1 then .ok (none, rv.2)
    else .ok (some (.boolean m rv.1), rv.2)

/-- parse_element, case 0x2, lines 381-386. -/
def parse_int_body (m : Marker) (s : Stream) :
    Except PyErr (Option GameElement × Stream) :=
  let r8 := s.read 8
  if r8.1 ≠ List.replicate 8 0 then .ok (none, r8.2)
  else
    let rv := _parse_int32 r8.2
    .ok (some (.intElement m rv.1), rv.2)

/-- parse_element, case 0x3, lines 387-388. -/
def parse_unknown12_body (m : Marker) (s : Stream) :
    Except PyErr (Option GameElement × Stream) :=
  let r := s.read 12
  .ok (some (.unknown12 m r.1), r.2)

/-- parse_element, cases 0x4 and 0x5, lines 390-396: a raw result of
_read_byte_data is the weird empty string, kept as an UnknownString
header; otherwise the stride is asserted to be 1. -/
def parse_string_body (m : Marker) (s : Stream) :
    Except PyErr (Option GameElement × Stream) :=
  match _read_byte_data s with
  | .error e => .error e
  | .ok (.raw hb, s1) => .ok (some (.unknownString m hb), s1)
  | .ok (.byteData bd, s1) =>
    if bd.b_per_element = 1 then .ok (some (.stringElement m bd), s1)
    else .error .assertionError

/-- parse_element, case 0x6, lines 398-401: the source asserts
byte_data.b_per_element == 2 directly, so a raw (bytes) result raises
AttributeError on b_per_element. -/
def parse_utf_body (m : Marker) (s : Stream) :
    Except PyErr (Option GameElement × Stream) :=
  match _read_byte_data s with
  | .error e => .error e
  | .ok (.raw _, _) => .error (.attributeError "b_per_element")
  | .ok (.byteData bd, s1) =>
    if bd.b_per_element = 2 then .ok (some (.utfString m bd), s1)
    else .error .assertionError

/-- parse_element, case 0xD, lines 426-427. -/
def parse_unknown16_body (m : Marker) (s : Stream) :
    Except PyErr (Option GameElement × Stream) :=
  let r := s.read 16
  .ok (some (.unknown16 m r.1), r.2)

/-- parse_element, case 0x14, lines 429-433, with assert on the fixed
prefix 00 00 00 80 00 00 00 00 and the 4 zero suffix bytes. -/
def parse_timestamp_body (m : Marker) (s : Stream) :
    Except PyErr (Option GameElement × Stream) :=
  let r8 := s.read 8
  if r8.1 ≠ [0, 0, 0, 0x80, 0, 0, 0, 0] then .error .assertionError
  else
    let rv := _parse_int32 r8.2
    let rz := rv.2.read 4
    if rz.1 ≠ [0, 0, 0, 0] then .error .assertionError
    else .ok (some (.timestamp m rv.1), rz.2)

/-- parse_element, case 0x18, lines 435-459: reads the framed blob,
writes it to debug.bin, splits the chunk stream, writes the joined
chunks to debug2.bin.  A raw _read_byte_data result raises
AttributeError on .b (line 437). -/
def parse_compressed_body (m : Marker) (s : Stream) :
    Except PyErr (Option GameElement × Stream) :=
  match _read_byte_data s with
  | .error e => .error e
  | .ok (.raw _, _) => .error (.attributeError "b")
  | .ok (.byteData bd, s1) =>
    let s2 := { s1 with writes := s1.writes ++ [("debug.bin", bd.b)] }
    let b := bd.b
    let header := b.take 4
    let inflated_size := fromLE ((b.drop 4).take 4)
    match chunk_loop (b.length + 1) b 8 with
    | .error e => .error e
    | .ok chunks =>
      let s3 := { s2 with writes := s2.writes ++ [("debug2.bin", chunks.flatten)] }
      .ok (some (.compressed m header inflated_size chunks), s3)

/-- Task selector for the single fuel-recursive element parser: a plain
element parse, or the child loop of the 0xA case, or the child loop of
the 0xB case. -/
inductive ParseTask where
  | element (marker : Option Marker)
  | childrenA (n : Nat)
  | childrenB (n : Nat)

inductive ParseResult where
  | element (e : Option GameElement)
  | children (l : List (Option GameElement))

/-- parse_element (lines 366-462) together with its two recursive child
loops (the 0xA loop of lines 406-410 and the 0xB loop of lines 416-421),
as one fuel-recursive function.  The match on the marker mirrors the
source: a None marker falls through every Marker pattern to the
anything_else case and yields None, as does any unknown type code. -/
def parse_go : Nat → ParseTask → Stream → Except PyErr (ParseResult × Stream)
  | 0, _, _ => .error .fuelOut
  | _ + 1, .element none, s => .ok (.element none, s)
  | fuel + 1, .element (some m), s =>
    match m.type_ with
    | 0x1 =>
      match parse_bool_body m s with
      | .error e => .error e
      | .ok (e, s1) => .ok (.element e, s1)
    | 0x2 =>
      match parse_int_body m s with
      | .error e => .error e
      | .ok (e, s1) => .ok (.element e, s1)
    | 0x3 =>
      match parse_unknown12_body m s with
      | .error e => .error e
      | .ok (e, s1) => .ok (.element e, s1)
    | 0x4 =>
      match parse_string_body m s with
      | .error e => .error e
      | .ok (e, s1) => .ok (.element e, s1)
    | 0x5 =>
      match parse_string_body m s with
      | .error e => .error e
      | .ok (e, s1) => .ok (.element e, s1)
    | 0x6 =>
      match parse_utf_body m s with
      | .error e => .error e
      | .ok (e, s1) => .ok (.element e, s1)
    | 0xA =>
      let r8 := s.read 8
      if r8.1 ≠ [0, 0, 0, 0x05, 0, 0, 0, 0] then .error .assertionError
      else
        let rc := _parse_int32 r8.2
        match parse_go fuel (.childrenA rc.1) rc.2 with
        | .error e => .error e
        | .ok (.children l, s3) => .ok (.element (some (.array0A m l)), s3)
        | .ok (.element _, _) => .error .fuelOut
    | 0xB =>
      let r8 := s.read 8
      let rc := _parse_int32 r8.2
      match parse_go fuel (.childrenB rc.1) rc.2 with
      | .error e => .error e
      | .ok (.children l, s3) => .ok (.element (some (.array0B m r8.1 l)), s3)
      | .ok (.element _, _) => .error .fuelOut
    | 0xD =>
      match parse_unknown16_body m s with
      | .error e => .error e
      | .ok (e, s1) => .ok (.element e, s1)
    | 0x14 =>
      match parse_timestamp_body m s with
      | .error e => .error e
      | .ok (e, s1) => .ok (.element e, s1)
    | 0x18 =>
      match parse_compressed_body m s with
      | .error e => .error e
      | .ok (e, s1) => .ok (.element e, s1)
    | _ => .ok (.element none, s)
  | _ + 1, .childrenA 0, s => .ok (.children [], s)
  | fuel + 1, .childrenA (n + 1), s =>
    let rm := _parse_marker none s
    match parse_go fuel (.element rm.1) rm.2 with
    | .error e => .error e
    | .ok (.element e, s2) =>
      match parse_go fuel (.childrenA n) s2 with
      | .error e => .error e
      | .ok (.children l, s3) => .ok (.children (e :: l), s3)
      | .ok (.element _, _) => .error .fuelOut
    | .ok (.children _, _) => .error .fuelOut
  | _ + 1, .childrenB 0, s => .ok (.children [], s)
  | fuel + 1, .childrenB (n + 1), s =>
    let rt := _parse_int32 s
    match parse_go fuel (.element (some ⟨[0, 0, 0, 0], rt.1⟩)) rt.2 with
    | .error e => .error e
    | .ok (.element e, s2) =>
      match parse_go fuel (.childrenB n) s2 with
      | .error e => .error e
      | .ok (.children l, s3) => .ok (.children (e :: l), s3)
      | .ok (.element _, _) => .error .fuelOut
    | .ok (.children _, _) => .error .fuelOut

/-- parse_element entry point; the marker argument is optional exactly
as in the source, where _parse_marker can return None. -/
def parse_element (fuel : Nat) (marker : Option Marker) (s : Stream) :
    Except PyErr (Option GameElement × Stream) :=
  match parse_go fuel (.element marker) s with
  | .error e => .error e
  | .ok (.element e, s1) => .ok (e, s1)
  | .ok (.children _, _) => .error .fuelOut

/-- FileSection, the nine section kinds of the source (the regular /
nameless distinction keeps the subclassing of the source: a nameless
section is a RegularFileSection with type_ = -1).  Element lists hold
options because parse_n_elements appends the possibly-None result of
parse_element. -/
inductive FileSection where
  | regular (type_ : Int) (elements : List (Option GameElement))
  | nameless (type_ : Int) (elements : List (Option GameElement))
  | empty
  | multi (subsections : List (Nat × List (Option GameElement)))
  | compressed (deflated_content : List (List Byte))
  | bitmap (type_ : Nat) (size : Nat × Nat) (bmap : List Nat)
  | pairs (entries : List (List Byte))
  | almostConstant (bytes_ : List Byte) (flagged_ints : List (List Byte))
  | customData (label : List Byte) (elements : List (Option GameElement))

/-- parse_n_elements (lines 529-538): parse a marker and an element n
times, appending the element (possibly None) each time.  When the
element is falsy the source prints a report that calls
marker.pretty_str(); if the marker itself is None (exhausted input) that
attribute access raises AttributeError. -/
def parse_n_elements (fuel : Nat) :
    Nat → Stream → Except PyErr (List (Option GameElement) × Stream)
  | 0, s => .ok ([], s)
  | n + 1, s =>
    let rm := _parse_marker none s
    match parse_element fuel rm.1 rm.2 with
    | .error e => .error e
    | .ok (element, s2) =>
      if element.isNone ∧ rm.1.isNone then .error (.attributeError "pretty_str")
      else
        match parse_n_elements fuel n s2 with
        | .error e => .error e
        | .ok (rest, s3) => .ok (element :: rest, s3)

/-- The element-count adjustment of parse_regular_section, line 628:
count + 4 if (type_[0] == 1 and count > 0x40) else count.  Note the
strict comparison in the source. -/
def adjusted_count (t0 count : Nat) : Nat :=
  if t0 = 1 ∧ count > 0x40 then count + 4 else count

/-- parse_regular_section (lines 620-630): 4 type bytes; the exact bytes
10 00 00 00 give an EmptyFileSection; otherwise a 4-byte count, the
count quirk, then that many elements.  type_[0] on an empty read raises
IndexError (the and short-circuits only after evaluating type_[0]).
Only int(type_[0]), the low byte, is stored as the section type. -/
def parse_regular_section (fuel : Nat) (s : Stream) :
    Except PyErr (FileSection × Stream) :=
  let rt := s.read 4
  if rt.1 = [0x10, 0, 0, 0] then .ok (.empty, rt.2)
  else
    let rc := _parse_int32 rt.2
    match rt.1 with
    | [] => .error .indexError
    | t0 :: _ =>
      match parse_n_elements fuel (adjusted_count t0 rc.1) rc.2 with
      | .error e => .error e
      | .ok (elements, s3) => .ok (.regular (t0 : Int) elements, s3)

/-- parse_nameless_section (lines 633-638): count, quirk without any
type condition, elements; the stored type is -1. -/
def parse_nameless_section (fuel : Nat) (s : Stream) :
    Except PyErr (FileSection × Stream) :=
  let rc := _parse_int32 s
  let count := if rc.1 > 0x40 then rc.1 + 4 else rc.1
  match parse_n_elements fuel count rc.2 with
  | .error e => .error e
  | .ok (elements, s2) => .ok (.nameless (-1) elements, s2)

/-- Subsection loop of parse_multisection (lines 645-650). -/
def multi_loop (fuel : Nat) :
    Nat → Stream → Except PyErr (List (Nat × List (Option GameElement)) × Stream)
  | 0, s => .ok ([], s)
  | n + 1, s =>
    let ri := _parse_int32 s
    let rc := _parse_int32 ri.2
    match parse_n_elements fuel rc.1 rc.2 with
    | .error e => .error e
    | .ok (elements, s3) =>
      match multi_loop fuel n s3 with
      | .error e => .error e
      | .ok (rest, s4) => .ok ((ri.1, elements) :: rest, s4)

/-- parse_multisection (lines 641-651). -/
def parse_multisection (fuel : Nat) (s : Stream) :
    Except PyErr (FileSection × Stream) :=
  let rc := _parse_int32 s
  match multi_loop fuel rc.1 rc.2 with
  | .error e => .error e
  | .ok (res, s2) => .ok (.multi res, s2)

/-- Chunk loop of parse_compressed (lines 657-663): read a 4-byte chunk
size and that many bytes, appending, until a chunk of size < 0x10000 has
been appended. -/
def compressed_loop : Nat → Stream → List (List Byte) →
    Except PyErr (List (List Byte) × Stream)
  | 0, _, _ => .error .fuelOut
  | fuel + 1, s, acc =>
    let rc := _parse_int32 s
    let rb := rc.2.read rc.1
    let acc1 := acc ++ [rb.1]
    if rc.1 < 0x10000 then .ok (acc1, rb.2)
    else compressed_loop fuel rb.2 acc1

/-- parse_compressed (lines 654-663). -/
def parse_compressed (fuel : Nat) (s : Stream) :
    Except PyErr (FileSection × Stream) :=
  match compressed_loop fuel s [] with
  | .error e => .error e
  | .ok (data, s1) => .ok (.compressed data, s1)

/-- Cell-reading loop of parse_bmap (lines 673-676). -/
def read_n_int32 : Nat → Stream → List Nat × Stream
  | 0, s => ([], s)
  | n + 1, s =>
    let rv := _parse_int32 s
    let rest := read_n_int32 n rv.2
    (rv.1 :: rest.1, rest.2)

/-- parse_bmap (lines 666-677). -/
def parse_bmap (s : Stream) : Except PyErr (FileSection × Stream) :=
  let rt := _parse_int32 s
  let rw := _parse_int32 rt.2
  let rh := _parse_int32 rw.2
  let rd := read_n_int32 (rw.1 * rh.1) rh.2
  .ok (.bitmap rt.1 (rw.1, rh.1) rd.1, rd.2)

/-- Fixed-size record loop used by parse_pairs_section (10-byte records,
line 685) and parse_weird_constant_data (5-byte records, line 717). -/
def read_n_chunks (sz : Nat) : Nat → Stream → List (List Byte) × Stream
  | 0, s => ([], s)
  | n + 1, s =>
    let rc := s.read sz
    let rest := read_n_chunks sz n rc.2
    (rc.1 :: rest.1, rest.2)

/-- parse_pairs_section (lines 680-685), with the assert on the fixed
literal A5 A5 00 00. -/
def parse_pairs_section (s : Stream) : Except PyErr (FileSection × Stream) :=
  let rm := s.read 4
  if rm.1 ≠ [0xA5, 0xA5, 0, 0] then .error .assertionError
  else
    let rc := _parse_int32 rm.2
    let re := read_n_chunks 10 rc.1 rc.2
    .ok (.pairs re.1, re.2)

/-- parse_weird_constant_data (lines 712-719), with the assert on the
12-byte trailer.  Line 719 passes the builtin bytes type as the bytes_
field instead of the bytes that were read (a source slip with no effect
on the cursor); the model keeps the read bytes, which no claim of this
development depends on. -/
def parse_weird_constant_data (s : Stream) : Except PyErr (FileSection × Stream) :=
  let rl := _parse_int32 s
  let rb := rl.2.read rl.1
  let rn := _parse_int32 rb.2
  let rts := read_n_chunks 5 rn.1 rn.2
  let rtr := rts.2.read 12
  if rtr.1 ≠ [1, 0, 0, 0, 1, 0, 0, 0, 1, 0, 0, 0] then .error .assertionError
  else .ok (.almostConstant rb.1 rts.1, rtr.2)

/-- parse_custom_data (lines 722-729). -/
def parse_custom_data (fuel : Nat) (s : Stream) :
    Except PyErr (FileSection × Stream) :=
  let rl := _parse_int32 s
  let rb := rl.2.read rl.1
  let rc := _parse_int32 rb.2
  match parse_n_elements fuel rc.1 rc.2 with
  | .error e => .error e
  | .ok (elements, s4) => .ok (.customData rb.1 elements, s4)

/-- The stage-1 loop break condition of parse_civ6save (line 741):
isinstance(section, RegularFileSection) and not section.elements.
NamelessSection is a subclass of RegularFileSection, so both regular and
nameless sections with an empty element list satisfy it; an
EmptyFileSection never does. -/
def break_cond : FileSection → Bool
  | .regular _ elements => elements.isEmpty
  | .nameless _ elements => elements.isEmpty
  | _ => false

/-- The stage-1 regular-section loop of parse_civ6save (lines 737-742):
parse a regular section, append it, and stop when the break condition
holds for the section just appended. -/
def stage1 : Nat → Stream → Except PyErr (List FileSection × Stream)
  | 0, _ => .error .fuelOut
  | fuel + 1, s =>
    match parse_regular_section fuel s with
    | .error e => .error e
    | .ok (section_, s1) =>
      if break_cond section_ then .ok ([section_], s1)
      else
        match stage1 fuel s1 with
        | .error e => .error e
        | .ok (rest, s2) => .ok (section_ :: rest, s2)

/-- Stages 0 through 8 of parse_civ6save (lines 733-763): magic assert,
the stage-1 loop, then the seven fixed sections, in order. -/
def parse_civ6save_stages (fuel : Nat) (s : Stream) :
    Except PyErr (List FileSection × Stream) :=
  let rm := s.read 4
  if rm.1 ≠ [0x43, 0x49, 0x56, 0x36] then .error .assertionError
  else
    match stage1 fuel rm.2 with
    | .error e => .error e
    | .ok (result, s1) =>
      match parse_multisection fuel s1 with
      | .error e => .error e
      | .ok (sec2, s2) =>
        match parse_nameless_section fuel s2 with
        | .error e => .error e
        | .ok (sec3, s3) =>
          match parse_compressed fuel s3 with
          | .error e => .error e
          | .ok (sec4, s4) =>
            match parse_bmap s4 with
            | .error e => .error e
            | .ok (sec5, s5) =>
              match parse_pairs_section s5 with
              | .error e => .error e
              | .ok (sec6, s6) =>
                match parse_weird_constant_data s6 with
                | .error e => .error e
                | .ok (sec7, s7) =>
                  match parse_custom_data fuel s7 with
                  | .error e => .error e
                  | .ok (sec8, s8) =>
                    .ok (result ++ [sec2, sec3, sec4, sec5, sec6, sec7, sec8], s8)

/-- parse_civ6save (lines 732-771): run the stages, then compare the
cursor with the end of the stream (lines 765-769); a mismatch raises
RuntimeError, otherwise the ordered section list is returned with the
cursor seeked to the end. -/
def parse_civ6save (fuel : Nat) (s : Stream) :
    Except PyErr (List FileSection × Stream) :=
  match parse_civ6save_stages fuel s with
  | .error e => .error e
  | .ok (result, s8) =>
    if s8.pos = s8.data.length then .ok (result, s8.seek s8.data.length)
    else .error .runtimeError

/-- The scan-fallback loop of parse_jack_shit (lines 692-709): read 4
tag bytes, remember the position right after them, try to parse a marker
and an element; on a None element record the raw tag bytes, stop if they
are 00 00 01 00, otherwise seek back and rescan; on success record the
element.  The while condition of line 692 tests read(4) is not None,
which is always true (read returns an empty bytes object at end of
stream, never None), so the loop can only leave through the terminator
check or an exception. -/
def jack_loop : Nat → Stream → List (GameElement ⊕ List Byte) →
    Except PyErr (List (GameElement ⊕ List Byte) × Stream)
  | 0, _, _ => .error .fuelOut
  | fuel + 1, s, result =>
    let rt := s.read 4
    let tag_bytes := rt.1
    let skip_target_pos := rt.2.pos
    let rm := _parse_marker (some tag_bytes) rt.2
    match parse_element fuel rm.1 rm.2 with
    | .error e => .error e
    | .ok (none, s3) =>
      let result1 := result ++ [Sum.inr tag_bytes]
      if tag_bytes = [0, 0, 1, 0] then .ok (result1, s3)
      else jack_loop fuel (s3.seek skip_target_pos) result1
    | .ok (some element, s3) => jack_loop fuel s3 (result ++ [Sum.inl element])

/-- parse_jack_shit (lines 688-709): magic assert, then the scan loop. -/
def parse_jack_shit (fuel : Nat) (s : Stream) :
    Except PyErr (List (GameElement ⊕ List Byte) × Stream) :=
  let rm := s.read 4
  if rm.1 = [0x43, 0x49, 0x56, 0x36] then jack_loop fuel rm.2 []
  else .error .assertionError

/-- Python int.to_bytes(4, "little", signed=False), which raises
OverflowError outside [0, 2^32). -/
def _to_bytes_checked (x : Int) : Except PyErr (List Byte) :=
  if 0 ≤ x ∧ x < 4294967296 then .ok (toLE4 x.toNat) else .error .overflowError

/-- GameElement.serialize: each variant models the serialize method of
the corresponding source class.  Every one of them raises:
IntElement (line 121) reads the missing attribute self.header;
BooleanElement (line 243) and TimestampElement (line 213) add the
unparenthesized bound method self.marker.serialize to a bytes object
(TypeError); Unknown12Bytes (line 228) and Unknown16Bytes (line 199)
read the unbound global content; Array0AElement (line 301) reads the
unbound global elements; CompressedElement (line 276) reads the unbound
global chunks; the string variants and Array0BElement call
Marker.serialize(), which raises NameError on the unbound global name
(line 89). -/
def GameElement.serialize : GameElement → Except PyErr (List Byte)
  | .intElement .. => .error (.attributeError "header")
  | .boolean .. => .error .typeError
  | .timestamp .. => .error .typeError
  | .unknown12 .. => .error (.nameError "content")
  | .unknown16 .. => .error (.nameError "content")
  | .unknownString m header => do
    let mb ← m.serialize
    .ok (mb ++ header ++ [0, 0, 0, 0])
  | .stringElement m content => do
    let mb ← m.serialize
    let cb ← content.serialize
    .ok (mb ++ cb)
  | .utfString m content => do
    let mb ← m.serialize
    let cb ← content.serialize
    .ok (mb ++ cb)
  | .array0A .. => .error (.nameError "elements")
  | .array0B m _ _ => do
    let mb ← m.serialize
    .ok mb
  | .compressed .. => .error (.nameError "chunks")

/-- b''.join(element.serialize() for element in elements), as used by
RegularFileSection.serialize (line 488); a None entry raises
AttributeError on .serialize. -/
def serialize_elements : List (Option GameElement) → Except PyErr (List Byte)
  | [] => .ok []
  | none :: _ => .error (.attributeError "serialize")
  | some e :: rest => do
    let b ← e.serialize
    let r ← serialize_elements rest
    .ok (b ++ r)

/-- The reported-size computation of RegularFileSection.serialize
(lines 483-485): subtract 4 when type_ == 1 and the element count is
at least 0x40.  Note the non-strict comparison, unlike the strict one
of the decode quirk on line 628. -/
def reported_size (type_ : Int) (nElements : Nat) : Int :=
  if type_ = 1 ∧ (nElements : Int) ≥ 0x40 then (nElements : Int) - 4
  else (nElements : Int)

/-- RegularFileSection.serialize (lines 482-488). -/
def RegularFileSection.serialize (type_ : Int)
    (elements : List (Option GameElement)) : Except PyErr (List Byte) := do
  let tb ← _to_bytes_checked type_
  let rb ← _to_bytes_checked (reported_size type_ elements.length)
  let eb ← serialize_elements elements
  .ok (tb ++ rb ++ eb)

/-- MultiSection.serialize, line 517: the body begins with
_to_bytes(len(self.elements)), but MultiSection has no elements
attribute (its field is subsections), so every call raises
AttributeError. -/
def MultiSection.serialize (_subsections : List (Nat × List (Option GameElement))) :
    Except PyErr (List Byte) :=
  .error (.attributeError "elements")

/-- Frame property relating the writes list before and after a parse
step: every write present afterwards was either already present before
or targets one of the two debug dump files the element decoder opens. -/
def DebugOnly (s t : Stream) : Prop :=
  ∀ w ∈ t.writes, w ∈ s.writes ∨ w.1 = "debug.bin" ∨ w.1 = "debug2.bin"

/-! Concrete test fixtures: synthetic minimal documents used to settle
the claims on explicit inputs. -/

/-- A minimal well-formed document: magic, one zero-element regular
section (type byte 2) ending stage 1, an empty multisection, a
zero-count nameless section, one zero-length compressed chunk, a 0 x 0
bitmap, zero pairs, an empty almost-constant section with its trailer,
and a zero-element custom-data section with an empty label.
72 bytes, parsed completely. -/
def doc_minimal : List Byte :=
  [0x43, 0x49, 0x56, 0x36] ++ [2, 0, 0, 0, 0, 0, 0, 0] ++ [0, 0, 0, 0] ++
  [0, 0, 0, 0] ++ [0, 0, 0, 0] ++ [0, 0, 0, 0, 0, 0, 0, 0, 0, 0, 0, 0] ++
  [0xA5, 0xA5, 0, 0, 0, 0, 0, 0] ++
  [0, 0, 0, 0, 0, 0, 0, 0, 1, 0, 0, 0, 1, 0, 0, 0, 1, 0, 0, 0] ++
  [0, 0, 0, 0, 0, 0, 0, 0]

/-- The sections doc_minimal parses to. -/
def secs_minimal : List FileSection :=
  [.regular 2 [], .multi [], .nameless (-1) [], .compressed [[]],
   .bitmap 0 (0, 0) [], .pairs [], .almostConstant [] [], .customData [] []]

/-- doc_minimal with the first stage-1 section replaced by a type-2
section declaring one element whose body is a boolean with the
out-of-domain value 2 (an InvalidDomainValue at the element scope),
followed by the zero-element section that ends stage 1.  100 bytes,
parsed completely despite the bad element. -/
def doc_badbool : List Byte :=
  [0x43, 0x49, 0x56, 0x36] ++ [2, 0, 0, 0, 1, 0, 0, 0] ++
  [0xAA, 0xAA, 0xAA, 0xAA, 1, 0, 0, 0, 0, 0, 0, 0, 0, 0, 0, 0, 2, 0, 0, 0] ++
  [2, 0, 0, 0, 0, 0, 0, 0] ++ [0, 0, 0, 0] ++ [0, 0, 0, 0] ++ [0, 0, 0, 0] ++
  [0, 0, 0, 0, 0, 0, 0, 0, 0, 0, 0, 0] ++ [0xA5, 0xA5, 0, 0, 0, 0, 0, 0] ++
  [0, 0, 0, 0, 0, 0, 0, 0, 1, 0, 0, 0, 1, 0, 0, 0, 1, 0, 0, 0] ++
  [0, 0, 0, 0, 0, 0, 0, 0]

/-- doc_minimal with the first stage-1 section holding one type-0x18
CompressedBlob element (8 content bytes: header 01 02 03 04, declared
inflated size 0, empty chunk stream); decoding it makes the source write
debug.bin and debug2.bin.  104 bytes, parsed completely. -/
def doc_blob : List Byte :=
  [0x43, 0x49, 0x56, 0x36] ++ [2, 0, 0, 0, 1, 0, 0, 0] ++
  [0xBB, 0xBB, 0xBB, 0xBB, 0x18, 0, 0, 0] ++ [8, 0, 0] ++ [0x21] ++
  [1, 0, 0, 0] ++ [1, 2, 3, 4, 0, 0, 0, 0] ++
  [2, 0, 0, 0, 0, 0, 0, 0] ++ [0, 0, 0, 0] ++ [0, 0, 0, 0] ++ [0, 0, 0, 0] ++
  [0, 0, 0, 0, 0, 0, 0, 0, 0, 0, 0, 0] ++ [0xA5, 0xA5, 0, 0, 0, 0, 0, 0] ++
  [0, 0, 0, 0, 0, 0, 0, 0, 1, 0, 0, 0, 1, 0, 0, 0, 1, 0, 0, 0] ++
  [0, 0, 0, 0, 0, 0, 0, 0]

/-- The sections doc_blob parses to. -/
def secs_blob : List FileSection :=
  [.regular 2 [some (.compressed ⟨[0xBB, 0xBB, 0xBB, 0xBB], 0x18⟩ [1, 2, 3, 4] 0 [])],
   .regular 2 [], .multi [], .nameless (-1) [], .compressed [[]],
   .bitmap 0 (0, 0) [], .pairs [], .almostConstant [] [], .customData [] []]

end Tarification

namespace Tarification

/-! Helper lemmas. -/

theorem toLE4_length (v : Nat) : (toLE4 v).length = 4 := rfl

theorem fromLE_toLE4 (v : Nat) : fromLE (toLE4 v) = v % 4294967296 := by
  simp only [fromLE, toLE4, List.foldr]
  omega

/-- Whenever parse_n_elements returns at all, the returned list has
exactly n entries: the source appends the (possibly None) result of
every single element parse. -/
theorem parse_n_elements_length :
    ∀ (fuel n : Nat) (s : Stream) (l : List (Option GameElement)) (s' : Stream),
      parse_n_elements fuel n s = .ok (l, s') → l.length = n := by
  intro fuel n
  induction n with
  | zero =>
    intro s l s' h
    simp only [parse_n_elements] at h
    cases h
    rfl
  | succ n ih =>
    intro s l s' h
    simp only [parse_n_elements] at h
    split at h
    · cases h
    · split at h
      · cases h
      · split at h
        · cases h
        · rename_i rest s3 hrec
          cases h
          simpa using ih _ _ _ hrec

/-- Concrete evaluation: on doc_minimal plus one trailing byte, the
8 stages complete, consuming 72 of the 73 bytes. -/
theorem doc_minimal_trailing_stages :
    parse_civ6save_stages 30 ⟨doc_minimal ++ [0], 0, []⟩ =
      .ok (secs_minimal, ⟨doc_minimal ++ [0], 72, []⟩) := rfl

/-- Concrete evaluation: doc_blob parses completely, producing the two
debug-dump writes of the 0x18 element decoder. -/
theorem doc_blob_parse :
    parse_civ6save 30 ⟨doc_blob, 0, []⟩ =
      .ok (secs_blob,
           ⟨doc_blob, 104,
            [("debug.bin", [1, 2, 3, 4, 0, 0, 0, 0]), ("debug2.bin", [])]⟩) := rfl

/-- Concrete evaluation: two boolean elements parse to a two-entry list. -/
theorem two_booleans_parse :
    parse_n_elements 1 2
      ⟨[0xAA, 0xAA, 0xAA, 0xAA, 1, 0, 0, 0, 0, 0, 0, 0, 0, 0, 0, 0, 1, 0, 0, 0,
        0xAB, 0xAB, 0xAB, 0xAB, 1, 0, 0, 0, 0, 0, 0, 0, 0, 0, 0, 0, 0, 0, 0, 0],
        0, []⟩ =
      .ok ([some (.boolean ⟨[0xAA, 0xAA, 0xAA, 0xAA], 1⟩ 1),
            some (.boolean ⟨[0xAB, 0xAB, 0xAB, 0xAB], 1⟩ 0)],
           ⟨[0xAA, 0xAA, 0xAA, 0xAA, 1, 0, 0, 0, 0, 0, 0, 0, 0, 0, 0, 0, 1, 0, 0, 0,
             0xAB, 0xAB, 0xAB, 0xAB, 1, 0, 0, 0, 0, 0, 0, 0, 0, 0, 0, 0, 0, 0, 0, 0],
             40, []⟩) := rfl

/-- At end of stream, one iteration of the scan loop reads an empty tag,
fails the marker parse, records an empty fragment, seeks back to the same
(end) position and loops: no amount of fuel lets it return. -/
theorem jack_loop_eof_diverges :
    ∀ (fuel : Nat) (result : List (GameElement ⊕ List Byte)),
      jack_loop fuel ⟨[0x43, 0x49, 0x56, 0x36], 4, []⟩ result = .error .fuelOut := by
  intro fuel
  induction fuel with
  | zero => intro result; rfl
  | succ k ih =>
    intro result
    cases k with
    | zero => rfl
    | succ j => exact ih (result ++ [Sum.inr []])

/-! Write-frame lemmas: every parsing function either leaves the writes
list unchanged or extends it with debug-dump entries only. -/

theorem DebugOnly.refl (s : Stream) : DebugOnly s s := fun _ hw => .inl hw

theorem DebugOnly.of_eq {s t : Stream} (h : t.writes = s.writes) :
    DebugOnly s t := fun _w hw => .inl (h ▸ hw)

theorem DebugOnly.trans {s t u : Stream} (h1 : DebugOnly s t)
    (h2 : DebugOnly t u) : DebugOnly s u := by
  intro w hw
  rcases h2 w hw with hw' | hn
  · exact h1 w hw'
  · exact .inr hn

theorem writes_parse_marker (na : Option (List Byte)) (s : Stream) :
    ((_parse_marker na s).2).writes = s.writes := by
  cases na with
  | none =>
    simp only [_parse_marker]
    repeat' split
    all_goals rfl
  | some nb =>
    by_cases hnb : nb = []
    · subst hnb
      simp only [_parse_marker, if_true]
      split <;> rfl
    · simp only [_parse_marker, if_neg hnb]
      rfl

theorem writes_read_byte_data (s : Stream) (r : ByteDataResult) (s' : Stream)
    (h : _read_byte_data s = .ok (r, s')) : s'.writes = s.writes := by
  simp only [_read_byte_data] at h
  split at h
  · cases h; rfl
  · split at h
    · cases h; rfl
    · cases h

theorem writes_parse_bool_body (m : Marker) (s : Stream)
    (e : Option GameElement) (s' : Stream)
    (h : parse_bool_body m s = .ok (e, s')) : s'.writes = s.writes := by
  simp only [parse_bool_body] at h
  split at h
  · cases h; rfl
  · split at h <;> (cases h; rfl)

theorem writes_parse_int_body (m : Marker) (s : Stream)
    (e : Option GameElement) (s' : Stream)
    (h : parse_int_body m s = .ok (e, s')) : s'.writes = s.writes := by
  simp only [parse_int_body] at h
  split at h <;> (cases h; rfl)

theorem writes_parse_unknown12_body (m : Marker) (s : Stream)
    (e : Option GameElement) (s' : Stream)
    (h : parse_unknown12_body m s = .ok (e, s')) : s'.writes = s.writes := by
  cases h; rfl

theorem writes_parse_string_body (m : Marker) (s : Stream)
    (e : Option GameElement) (s' : Stream)
    (h : parse_string_body m s = .ok (e, s')) : s'.writes = s.writes := by
  simp only [parse_string_body] at h
  split at h
  · cases h
  · rename_i hb s1 hbd
    cases h
    exact writes_read_byte_data _ _ _ hbd
  · rename_i bd s1 hbd
    split at h
    · cases h
      exact writes_read_byte_data _ _ _ hbd
    · cases h

theorem writes_parse_utf_body (m : Marker) (s : Stream)
    (e : Option GameElement) (s' : Stream)
    (h : parse_utf_body m s = .ok (e, s')) : s'.writes = s.writes := by
  simp only [parse_utf_body] at h
  split at h
  · cases h
  · cases h
  · rename_i bd s1 hbd
    split at h
    · cases h
      exact writes_read_byte_data _ _ _ hbd
    · cases h

theorem writes_parse_unknown16_body (m : Marker) (s : Stream)
    (e : Option GameElement) (s' : Stream)
    (h : parse_unknown16_body m s = .ok (e, s')) : s'.writes = s.writes := by
  cases h; rfl

theorem writes_parse_timestamp_body (m : Marker) (s : Stream)
    (e : Option GameElement) (s' : Stream)
    (h : parse_timestamp_body m s = .ok (e, s')) : s'.writes = s.writes := by
  simp only [parse_timestamp_body] at h
  split at h
  · cases h
  · split at h
    · cases h
    · cases h; rfl

theorem debugOnly_parse_compressed_body (m : Marker) (s : Stream)
    (e : Option GameElement) (s' : Stream)
    (h : parse_compressed_body m s = .ok (e, s')) : DebugOnly s s' := by
  simp only [parse_compressed_body] at h
  split at h
  · cases h
  · cases h
  · rename_i bd s1 hbd
    split at h
    · cases h
    · rename_i chunks hch
      cases h
      intro w hw
      have h1 : s1.writes = s.writes := writes_read_byte_data _ _ _ hbd
      rcases List.mem_append.mp hw with hw1 | hw2
      · rcases List.mem_append.mp hw1 with hw3 | hw4
        · exact .inl (h1 ▸ hw3)
        · simp only [List.mem_singleton] at hw4
          rw [hw4]
          exact .inr (.inl rfl)
      · simp only [List.mem_singleton] at hw2
        rw [hw2]
        exact .inr (.inr rfl)

/-- The central frame lemma: the recursive element parser only ever
appends debug-dump writes. -/
theorem debugOnly_parse_go :
    ∀ (fuel : Nat) (task : ParseTask) (s : Stream) (r : ParseResult) (s' : Stream),
      parse_go fuel task s = .ok (r, s') → DebugOnly s s' := by
  intro fuel
  induction fuel with
  | zero => intro task s r s' h; cases h
  | succ k ih =>
    intro task s r s' h
    cases task with
    | element marker =>
      cases marker with
      | none => cases h; exact DebugOnly.refl _
      | some m =>
        simp only [parse_go] at h
        split at h
        · -- 0x1
          split at h
          · cases h
          · rename_i e1 s1 hb
            cases h
            exact DebugOnly.of_eq (writes_parse_bool_body _ _ _ _ hb)
        · -- 0x2
          split at h
          · cases h
          · rename_i e1 s1 hb
            cases h
            exact DebugOnly.of_eq (writes_parse_int_body _ _ _ _ hb)
        · -- 0x3
          split at h
          · cases h
          · rename_i e1 s1 hb
            cases h
            exact DebugOnly.of_eq (writes_parse_unknown12_body _ _ _ _ hb)
        · -- 0x4
          split at h
          · cases h
          · rename_i e1 s1 hb
            cases h
            exact DebugOnly.of_eq (writes_parse_string_body _ _ _ _ hb)
        · -- 0x5
          split at h
          · cases h
          · rename_i e1 s1 hb
            cases h
            exact DebugOnly.of_eq (writes_parse_string_body _ _ _ _ hb)
        · -- 0x6
          split at h
          · cases h
          · rename_i e1 s1 hb
            cases h
            exact DebugOnly.of_eq (writes_parse_utf_body _ _ _ _ hb)
        · -- 0xA
          split at h
          · cases h
          · split at h
            · cases h
            · rename_i l s3 hrec
              cases h
              have hmid := ih _ _ _ _ hrec
              exact DebugOnly.trans (DebugOnly.of_eq rfl) hmid
            · cases h
        · -- 0xB
          split at h
          · cases h
          · rename_i l s3 hrec
            cases h
            have hmid := ih _ _ _ _ hrec
            exact DebugOnly.trans (DebugOnly.of_eq rfl) hmid
          · cases h
        · -- 0xD
          split at h
          · cases h
          · rename_i e1 s1 hb
            cases h
            exact DebugOnly.of_eq (writes_parse_unknown16_body _ _ _ _ hb)
        · -- 0x14
          split at h
          · cases h
          · rename_i e1 s1 hb
            cases h
            exact DebugOnly.of_eq (writes_parse_timestamp_body _ _ _ _ hb)
        · -- 0x18
          split at h
          · cases h
          · rename_i e1 s1 hb
            cases h
            exact debugOnly_parse_compressed_body _ _ _ _ hb
        · -- default
          cases h
          exact DebugOnly.refl _
    | childrenA n =>
      cases n with
      | zero => cases h; exact DebugOnly.refl _
      | succ n1 =>
        simp only [parse_go] at h
        split at h
        · cases h
        · rename_i e1 s2 h1
          split at h
          · cases h
          · rename_i l s3 h2
            cases h
            exact DebugOnly.trans (DebugOnly.of_eq (writes_parse_marker none s))
              (DebugOnly.trans (ih _ _ _ _ h1) (ih _ _ _ _ h2))
          · cases h
        · cases h
    | childrenB n =>
      cases n with
      | zero => cases h; exact DebugOnly.refl _
      | succ n1 =>
        simp only [parse_go] at h
        split at h
        · cases h
        · rename_i e1 s2 h1
          split at h
          · cases h
          · rename_i l s3 h2
            cases h
            have hmid := DebugOnly.trans (ih _ _ _ _ h1) (ih _ _ _ _ h2)
            exact DebugOnly.trans (DebugOnly.of_eq rfl) hmid
          · cases h
        · cases h

theorem debugOnly_parse_element (fuel : Nat) (marker : Option Marker)
    (s : Stream) (e : Option GameElement) (s' : Stream)
    (h : parse_element fuel marker s = .ok (e, s')) : DebugOnly s s' := by
  simp only [parse_element] at h
  split at h
  · cases h
  · rename_i e1 s1 hgo
    cases h
    exact debugOnly_parse_go _ _ _ _ _ hgo
  · cases h

theorem debugOnly_parse_n_elements :
    ∀ (fuel n : Nat) (s : Stream) (l : List (Option GameElement)) (s' : Stream),
      parse_n_elements fuel n s = .ok (l, s') → DebugOnly s s' := by
  intro fuel n
  induction n with
  | zero => intro s l s' h; cases h; exact DebugOnly.refl _
  | succ n ih =>
    intro s l s' h
    simp only [parse_n_elements] at h
    split at h
    · cases h
    · rename_i element s2 hel
      split at h
      · cases h
      · split at h
        · cases h
        · rename_i rest s3 hrec
          cases h
          exact DebugOnly.trans (DebugOnly.of_eq (writes_parse_marker none s))
            (DebugOnly.trans (debugOnly_parse_element _ _ _ _ _ hel)
              (ih _ _ _ hrec))

theorem debugOnly_parse_regular_section (fuel : Nat) (s : Stream)
    (sec : FileSection) (s' : Stream)
    (h : parse_regular_section fuel s = .ok (sec, s')) : DebugOnly s s' := by
  simp only [parse_regular_section] at h
  split at h
  · cases h
    exact DebugOnly.of_eq rfl
  · split at h
    · cases h
    · split at h
      · cases h
      · rename_i elements s3 hne
        cases h
        have hmid := debugOnly_parse_n_elements _ _ _ _ _ hne
        exact DebugOnly.trans (DebugOnly.of_eq rfl) hmid

theorem debugOnly_parse_nameless_section (fuel : Nat) (s : Stream)
    (sec : FileSection) (s' : Stream)
    (h : parse_nameless_section fuel s = .ok (sec, s')) : DebugOnly s s' := by
  simp only [parse_nameless_section] at h
  split at h
  · cases h
  · rename_i elements s2 hne
    cases h
    have hmid := debugOnly_parse_n_elements _ _ _ _ _ hne
    exact DebugOnly.trans (DebugOnly.of_eq rfl) hmid

theorem debugOnly_multi_loop :
    ∀ (fuel n : Nat) (s : Stream)
      (l : List (Nat × List (Option GameElement))) (s' : Stream),
      multi_loop fuel n s = .ok (l, s') → DebugOnly s s' := by
  intro fuel n
  induction n with
  | zero => intro s l s' h; cases h; exact DebugOnly.refl _
  | succ n ih =>
    intro s l s' h
    simp only [multi_loop] at h
    split at h
    · cases h
    · rename_i elements s3 hne
      split at h
      · cases h
      · rename_i rest s4 hrec
        cases h
        have hmid := DebugOnly.trans (debugOnly_parse_n_elements _ _ _ _ _ hne)
          (ih _ _ _ hrec)
        exact DebugOnly.trans (DebugOnly.of_eq rfl) hmid

theorem debugOnly_parse_multisection (fuel : Nat) (s : Stream)
    (sec : FileSection) (s' : Stream)
    (h : parse_multisection fuel s = .ok (sec, s')) : DebugOnly s s' := by
  simp only [parse_multisection] at h
  split at h
  · cases h
  · rename_i res s2 hml
    cases h
    have hmid := debugOnly_multi_loop _ _ _ _ _ hml
    exact DebugOnly.trans (DebugOnly.of_eq rfl) hmid

theorem debugOnly_compressed_loop :
    ∀ (fuel : Nat) (s : Stream) (acc l : List (List Byte)) (s' : Stream),
      compressed_loop fuel s acc = .ok (l, s') → DebugOnly s s' := by
  intro fuel
  induction fuel with
  | zero => intro s acc l s' h; cases h
  | succ k ih =>
    intro s acc l s' h
    simp only [compressed_loop] at h
    split at h
    · cases h
      exact DebugOnly.of_eq rfl
    · have hmid := ih _ _ _ _ h
      exact DebugOnly.trans (DebugOnly.of_eq rfl) hmid

theorem debugOnly_parse_compressed (fuel : Nat) (s : Stream)
    (sec : FileSection) (s' : Stream)
    (h : parse_compressed fuel s = .ok (sec, s')) : DebugOnly s s' := by
  simp only [parse_compressed] at h
  split at h
  · cases h
  · rename_i data1 s1 hcl
    cases h
    exact debugOnly_compressed_loop _ _ _ _ _ hcl

theorem writes_read_n_int32 :
    ∀ (n : Nat) (s : Stream), ((read_n_int32 n s).2).writes = s.writes := by
  intro n
  induction n with
  | zero => intro s; rfl
  | succ k ih => intro s; exact ih _

theorem writes_read_n_chunks :
    ∀ (sz n : Nat) (s : Stream), ((read_n_chunks sz n s).2).writes = s.writes := by
  intro sz n
  induction n with
  | zero => intro s; rfl
  | succ k ih => intro s; exact ih _

theorem debugOnly_parse_bmap (s : Stream) (sec : FileSection) (s' : Stream)
    (h : parse_bmap s = .ok (sec, s')) : DebugOnly s s' := by
  simp only [parse_bmap] at h
  cases h
  exact DebugOnly.of_eq (writes_read_n_int32 _ _)

theorem debugOnly_parse_pairs_section (s : Stream) (sec : FileSection)
    (s' : Stream) (h : parse_pairs_section s = .ok (sec, s')) :
    DebugOnly s s' := by
  simp only [parse_pairs_section] at h
  split at h
  · cases h
  · cases h
    exact DebugOnly.of_eq (writes_read_n_chunks _ _ _)

theorem debugOnly_parse_weird_constant_data (s : Stream) (sec : FileSection)
    (s' : Stream) (h : parse_weird_constant_data s = .ok (sec, s')) :
    DebugOnly s s' := by
  simp only [parse_weird_constant_data] at h
  split at h
  · cases h
  · cases h
    exact DebugOnly.of_eq (writes_read_n_chunks _ _ _)

theorem debugOnly_parse_custom_data (fuel : Nat) (s : Stream)
    (sec : FileSection) (s' : Stream)
    (h : parse_custom_data fuel s = .ok (sec, s')) : DebugOnly s s' := by
  simp only [parse_custom_data] at h
  split at h
  · cases h
  · rename_i elements s4 hne
    cases h
    have hmid := debugOnly_parse_n_elements _ _ _ _ _ hne
    exact DebugOnly.trans (DebugOnly.of_eq rfl) hmid

theorem debugOnly_stage1 :
    ∀ (fuel : Nat) (s : Stream) (secs : List FileSection) (s' : Stream),
      stage1 fuel s = .ok (secs, s') → DebugOnly s s' := by
  intro fuel
  induction fuel with
  | zero => intro s secs s' h; cases h
  | succ k ih =>
    intro s secs s' h
    simp only [stage1] at h
    split at h
    · cases h
    · rename_i sec s1 hp
      split at h
      · cases h
        exact debugOnly_parse_regular_section _ _ _ _ hp
      · split at h
        · cases h
        · rename_i rest s2 hr
          cases h
          exact DebugOnly.trans (debugOnly_parse_regular_section _ _ _ _ hp)
            (ih _ _ _ hr)

theorem debugOnly_stages (fuel : Nat) (s : Stream)
    (secs : List FileSection) (s' : Stream)
    (h : parse_civ6save_stages fuel s = .ok (secs, s')) : DebugOnly s s' := by
  simp only [parse_civ6save_stages] at h
  split at h
  · cases h
  · split at h
    · cases h
    · rename_i r1 s1 h1
      split at h
      · cases h
      · rename_i r2 s2 h2
        split at h
        · cases h
        · rename_i r3 s3 h3
          split at h
          · cases h
          · rename_i r4 s4 h4
            split at h
            · cases h
            · rename_i r5 s5 h5
              split at h
              · cases h
              · rename_i r6 s6 h6
                split at h
                · cases h
                · rename_i r7 s7 h7
                  split at h
                  · cases h
                  · rename_i r8 s8 h8
                    cases h
                    have hmid := DebugOnly.trans (debugOnly_stage1 _ _ _ _ h1)
                      (DebugOnly.trans (debugOnly_parse_multisection _ _ _ _ h2)
                        (DebugOnly.trans (debugOnly_parse_nameless_section _ _ _ _ h3)
                          (DebugOnly.trans (debugOnly_parse_compressed _ _ _ _ h4)
                            (DebugOnly.trans (debugOnly_parse_bmap _ _ _ h5)
                              (DebugOnly.trans (debugOnly_parse_pairs_section _ _ _ h6)
                                (DebugOnly.trans
                                  (debugOnly_parse_weird_constant_data _ _ _ h7)
                                  (debugOnly_parse_custom_data _ _ _ _ h8)))))))
                    exact DebugOnly.trans (DebugOnly.of_eq rfl) hmid

end Tarification

namespace Tarification

/-! Claim theorems. -/

/-- C1: the claim states encode(decode(bytes)) == bytes and
decode(encode(x)) == x for the fully specified variants.  On the code
every serialize path raises: decoding the well-formed MultiSection bytes
00 00 00 00 succeeds, but re-serializing the result raises
AttributeError (MultiSection.serialize reads the nonexistent attribute
self.elements, line 517), and Marker.serialize — on which every element
serialize depends — raises NameError on the unbound global name
(line 89).  In addition the decode quirk threshold (strictly greater
than 0x40, line 628) disagrees with the encode reversal (at least 0x40,
lines 483-485), so a regular section with type byte 1 and raw count
0x40 would re-encode its count as 0x3C even with the crashes fixed. -/
theorem C1_roundtrip_broken :
    parse_multisection 1 ⟨[0, 0, 0, 0], 0, []⟩ =
      .ok (.multi [], ⟨[0, 0, 0, 0], 4, []⟩) ∧
    MultiSection.serialize [] = .error (.attributeError "elements") ∧
    Marker.serialize ⟨[0, 0, 0, 0], 2⟩ = .error (.nameError "name") ∧
    adjusted_count 1 0x40 = 0x40 ∧
    reported_size 1 (adjusted_count 1 0x40) = 0x3C := by
  refine ⟨rfl, rfl, rfl, by decide, by decide⟩

/-- C2 counterexample: decoding input whose first section is the
EmptySection sentinel 10 00 00 00 does not end the stage-1 loop — the
loop's break condition is false for EmptyFileSection, so the loop keeps
going and parses a further section after the sentinel.  Under the claim
the returned list would stop at the sentinel. -/
theorem C2_sentinel_does_not_terminate :
    stage1 4 ⟨[0x10, 0, 0, 0, 2, 0, 0, 0, 0, 0, 0, 0], 0, []⟩ =
      .ok ([.empty, .regular 2 []],
           ⟨[0x10, 0, 0, 0, 2, 0, 0, 0, 0, 0, 0, 0], 12, []⟩) ∧
    break_cond .empty = false := ⟨rfl, rfl⟩

/-- C2 (amended): the stage-1 loop terminates exactly when the section
just decoded is a RegularFileSection (or its Nameless subclass) with an
empty element list: whenever the loop returns, its last returned section
satisfies the break condition and no earlier one does; an EmptySection
sentinel never satisfies it. -/
theorem C2_stage1_termination :
    ∀ (fuel : Nat) (s : Stream) (secs : List FileSection) (s' : Stream),
      stage1 fuel s = .ok (secs, s') →
      ∃ init last, secs = init ++ [last] ∧ break_cond last = true ∧
        ∀ x ∈ init, break_cond x = false := by
  intro fuel
  induction fuel with
  | zero => intro s secs s' h; cases h
  | succ k ih =>
    intro s secs s' h
    simp only [stage1] at h
    split at h
    · cases h
    · rename_i sec s1 hp
      split at h
      · rename_i hb
        cases h
        exact ⟨[], sec, rfl, hb, by intro x hx; cases hx⟩
      · rename_i hb
        split at h
        · cases h
        · rename_i rest s2 hr
          cases h
          obtain ⟨init, last, heq, hlast, hall⟩ := ih _ _ _ hr
          refine ⟨sec :: init, last, by rw [heq]; rfl, hlast, ?_⟩
          intro x hx
          rcases List.mem_cons.mp hx with hx | hx
          · rw [hx]; exact Bool.eq_false_iff.mpr hb
          · exact hall x hx

/-- C2 witness: the termination shape holds on a concrete run (the
sentinel-prefixed input of the counterexample). -/
theorem C2_stage1_termination_witness :
    ∃ init last,
      ([FileSection.empty, FileSection.regular 2 []]) = init ++ [last] ∧
      break_cond last = true ∧ ∀ x ∈ init, break_cond x = false :=
  C2_stage1_termination 4 ⟨[0x10, 0, 0, 0, 2, 0, 0, 0, 0, 0, 0, 0], 0, []⟩
    [FileSection.empty, FileSection.regular 2 []]
    ⟨[0x10, 0, 0, 0, 2, 0, 0, 0, 0, 0, 0, 0], 12, []⟩ rfl

/-- C3 counterexample: the claim says the quirk applies when the raw
count is at least 0x40, so a type low byte 1 with raw count 0x40 would
decode as element count 0x44; the code's comparison on line 628 is
strict, so the count stays 0x40. -/
theorem C3_boundary_not_adjusted :
    adjusted_count 1 0x40 = 0x40 ∧ ¬ adjusted_count 1 0x40 = 0x40 + 4 := by
  decide

/-- C3 (amended): the element count used by a RegularSection decode is
the raw count plus 4 exactly when the type code's low byte is 1 and the
raw count is strictly greater than 0x40, and the raw count unchanged
otherwise; in particular low byte 1 with raw count 0x41 uses 0x45 and
low byte 2 with raw count 0x41 uses 0x41.  The last conjunct ties
adjusted_count to parse_regular_section: a successful regular-section
decode returns exactly adjusted_count many elements, computed from the
first type byte and the raw count field that were read. -/
theorem C3_count_quirk :
    (∀ c, 0x40 < c → adjusted_count 1 c = c + 4) ∧
    (∀ c, c ≤ 0x40 → adjusted_count 1 c = c) ∧
    (∀ t0 c, t0 ≠ 1 → adjusted_count t0 c = c) ∧
    adjusted_count 1 0x41 = 0x45 ∧ adjusted_count 2 0x41 = 0x41 ∧
    (∀ (fuel : Nat) (s : Stream) (t : Int) (els : List (Option GameElement))
       (s' : Stream),
       parse_regular_section fuel s = .ok (.regular t els, s') →
       ∃ t0 tr, (s.read 4).1 = t0 :: tr ∧ t = (t0 : Int) ∧
         els.length = adjusted_count t0 (_parse_int32 (s.read 4).2).1) := by
  refine ⟨?_, ?_, ?_, by decide, by decide, ?_⟩
  · intro c hc; simp [adjusted_count, hc]
  · intro c hc
    have : ¬ (0x40 < c) := by omega
    simp [adjusted_count, this]
  · intro t0 c ht; simp [adjusted_count, ht]
  · intro fuel s t els s' h
    simp only [parse_regular_section] at h
    split at h
    · simp at h
    · split at h
      · cases h
      · rename_i t0 tr heq
        split at h
        · cases h
        · rename_i elements s3 hne
          cases h
          exact ⟨t0, tr, heq, rfl, parse_n_elements_length _ _ _ _ _ hne⟩

/-- C3 witness: the linkage conjunct discharged on a concrete section
(type byte 2, raw count 0, zero elements). -/
theorem C3_count_quirk_witness :
    ∃ t0 tr, ((⟨[2, 0, 0, 0, 0, 0, 0, 0], 0, []⟩ : Stream).read 4).1 = t0 :: tr ∧
      (2 : Int) = (t0 : Int) ∧
      ([] : List (Option GameElement)).length =
        adjusted_count t0
          (_parse_int32 ((⟨[2, 0, 0, 0, 0, 0, 0, 0], 0, []⟩ : Stream).read 4).2).1 :=
  C3_count_quirk.2.2.2.2.2 1 ⟨[2, 0, 0, 0, 0, 0, 0, 0], 0, []⟩ 2 []
    ⟨[2, 0, 0, 0, 0, 0, 0, 0], 8, []⟩ rfl

/-- C4: the claim says the scan fallback never fails and terminates at
end of stream.  In the code the loop condition of line 692 is
read(4) is not None, which is always true because read returns an empty
bytes object (never None) at end of stream, so on the input consisting
of the magic bytes alone the scan loops forever, appending an empty raw
fragment and seeking back to the end position on every iteration: no
fuel bound makes it return. -/
theorem C4_scan_diverges_at_eof :
    ∀ fuel : Nat,
      parse_jack_shit fuel ⟨[0x43, 0x49, 0x56, 0x36], 0, []⟩ = .error .fuelOut :=
  fun fuel => jack_loop_eof_diverges fuel []

/-- C5: the claim says that in the zero-length ByteData branch the four
bytes after the stride placeholder must be all zero, else the decode
fails with StructuralMismatch.  On line 358 the source constructs
RuntimeError(...) but never raises it, so the decode silently succeeds:
on count 0, header byte 07, placeholder 09 09 09 09 and non-zero tail
01 00 00 00, _read_byte_data returns the retained 8 header bytes and a
type-0x4 element decode wraps them in an UnknownStringElement. -/
theorem C5_zero_string_mismatch_not_raised :
    _read_byte_data ⟨[0, 0, 0, 0x07, 9, 9, 9, 9, 1, 0, 0, 0], 0, []⟩ =
      .ok (.raw [0, 0, 0, 0x07, 9, 9, 9, 9],
           ⟨[0, 0, 0, 0x07, 9, 9, 9, 9, 1, 0, 0, 0], 12, []⟩) ∧
    parse_element 1 (some ⟨[0xCC, 0xCC, 0xCC, 0xCC], 0x4⟩)
        ⟨[0, 0, 0, 0x07, 9, 9, 9, 9, 1, 0, 0, 0], 0, []⟩ =
      .ok (some (.unknownString ⟨[0xCC, 0xCC, 0xCC, 0xCC], 0x4⟩
             [0, 0, 0, 0x07, 9, 9, 9, 9]),
           ⟨[0, 0, 0, 0x07, 9, 9, 9, 9, 1, 0, 0, 0], 12, []⟩) := ⟨rfl, rfl⟩

/-- C6 counterexample: doc_badbool contains a boolean element with the
invalid domain value 2; its element decode fails (second conjunct: the
single element of the first section parses to the None placeholder),
yet the document decode as a whole succeeds (first conjunct), refuting
that such a failure aborts the section and fails the document. -/
theorem C6_document_succeeds_despite_failure :
    (parse_civ6save 30 ⟨doc_badbool, 0, []⟩).isOk = true ∧
    parse_n_elements 1 1 ⟨doc_badbool, 12, []⟩ =
      .ok ([none], ⟨doc_badbool, 32, []⟩) := ⟨rfl, rfl⟩

/-- C6 (amended): an InvalidDomainValue (or any None-producing failure)
inside a single element decode is recorded as a None placeholder in the
enclosing section's element list and reported, but does not abort the
section: the section keeps its position in the output, further sections
are parsed, and the document decode as a whole can still succeed — on
doc_badbool the first section is kept as a regular section holding the
single placeholder, 9 sections are returned, and the cursor reaches the
full 100-byte length. -/
theorem C6_failure_recorded_as_placeholder :
    (parse_civ6save 30 ⟨doc_badbool, 0, []⟩).toOption.map
        (fun r => (r.1.head?, r.1.length, r.2.pos)) =
      some (some (.regular 2 [none]), 9, 100) := rfl

/-- C7: after the 8-stage parse reaches its final state, the document
parse returns the ordered section list exactly when the cursor equals
the total stream length, and raises the trailing-data RuntimeError
exactly when it does not (lines 765-771). -/
theorem C7_trailing_data_check (fuel : Nat) (s : Stream)
    (secs : List FileSection) (s8 : Stream)
    (h : parse_civ6save_stages fuel s = .ok (secs, s8)) :
    (s8.pos = s8.data.length →
      parse_civ6save fuel s = .ok (secs, s8.seek s8.data.length)) ∧
    (s8.pos ≠ s8.data.length → parse_civ6save fuel s = .error .runtimeError) := by
  constructor <;> intro hp <;> simp [parse_civ6save, h, hp]

/-- C7 witness: on doc_minimal with one trailing byte the stages
complete at position 72 of 73, and the document parse raises the
trailing-data error. -/
theorem C7_trailing_data_check_witness :
    parse_civ6save 30 ⟨doc_minimal ++ [0], 0, []⟩ = .error .runtimeError :=
  (C7_trailing_data_check 30 ⟨doc_minimal ++ [0], 0, []⟩ secs_minimal
    ⟨doc_minimal ++ [0], 72, []⟩ doc_minimal_trailing_stages).2 (by decide)

/-- C8: boolean element decode (type code 0x1) after the 8 zero padding
bytes accepts exactly the values 0 and 1: for every 32-bit value v the
decode returns a BooleanElement when v is 0 or 1 and the
InvalidDomainValue outcome (None, the source's report-and-return-None
path) when v is 2 or larger, consuming 12 bytes either way. -/
theorem C8_boolean_domain (nm rest : List Byte) (w : List (String × List Byte))
    (v fuel : Nat) (hv : v < 4294967296) :
    parse_element (fuel + 1) (some ⟨nm, 0x1⟩)
        ⟨List.replicate 8 0 ++ (toLE4 v ++ rest), 0, w⟩ =
      .ok ((if 1 < v then none else some (.boolean ⟨nm, 0x1⟩ v)),
           ⟨List.replicate 8 0 ++ (toLE4 v ++ rest), 12, w⟩) := by
  have hlen : (List.replicate 8 (0 : Byte)).length = 8 := by simp
  have htake : (List.replicate 8 (0 : Byte) ++ (toLE4 v ++ rest)).take 8 =
      List.replicate 8 0 := List.take_left' hlen
  have h8 : ((⟨List.replicate 8 0 ++ (toLE4 v ++ rest), 0, w⟩ : Stream).read 8) =
      (List.replicate 8 0, ⟨List.replicate 8 0 ++ (toLE4 v ++ rest), 8, w⟩) := by
    simp [Stream.read, htake]
  have hdrop : (List.replicate 8 (0 : Byte) ++ (toLE4 v ++ rest)).drop 8 =
      toLE4 v ++ rest := List.drop_left' hlen
  have htake4 : (toLE4 v ++ rest).take 4 = toLE4 v :=
    List.take_left' (toLE4_length v)
  have h4 : ((⟨List.replicate 8 0 ++ (toLE4 v ++ rest), 8, w⟩ : Stream).read 4) =
      (toLE4 v, ⟨List.replicate 8 0 ++ (toLE4 v ++ rest), 12, w⟩) := by
    simp [Stream.read, hdrop, htake4, toLE4_length]
  simp only [parse_element, parse_go, parse_bool_body, _parse_int32, h8, h4]
  simp only [fromLE_toLE4, Nat.mod_eq_of_lt hv]
  by_cases h1 : 1 < v
  · simp [h1]
  · simp [h1]

/-- C8 witness: value 2 with valid padding decodes to the None outcome,
not a BooleanElement. -/
theorem C8_boolean_domain_witness :
    parse_element 1 (some ⟨[0xAA, 0xAA, 0xAA, 0xAA], 0x1⟩)
        ⟨List.replicate 8 0 ++ (toLE4 2 ++ []), 0, []⟩ =
      .ok (none, ⟨List.replicate 8 0 ++ (toLE4 2 ++ []), 12, []⟩) := by
  have h := C8_boolean_domain [0xAA, 0xAA, 0xAA, 0xAA] [] [] 2 0 (by decide)
  simpa using h

/-- C9 counterexample: parsing doc_blob — a well-formed document whose
first section holds one CompressedBlob (type 0x18) element — succeeds
and performs two file writes, the debug dumps of lines 437-438 and
453-454: the parse does not leave the file system untouched. -/
theorem C9_parse_performs_debug_writes :
    (parse_civ6save 30 ⟨doc_blob, 0, []⟩).toOption.map (fun r => r.2.writes) =
      some [("debug.bin", [1, 2, 3, 4, 0, 0, 0, 0]), ("debug2.bin", [])] ∧
    ¬ ([("debug.bin", [1, 2, 3, 4, 0, 0, 0, 0]),
        ("debug2.bin", ([] : List Byte))] :
          List (String × List Byte)) = [] := ⟨rfl, by decide⟩

/-- C9 (amended): the document parse writes no persisted state other
than debug byte dumps: every file write performed by a successful parse
started on a fresh stream targets one of the two fixed debug dump
files, debug.bin and debug2.bin (the only write sites in the source are
lines 437-438 and 453-454, inside the type-0x18 case of
parse_element). -/
theorem C9_writes_only_debug_dumps (fuel : Nat) (data : List Byte)
    (secs : List FileSection) (s' : Stream)
    (h : parse_civ6save fuel ⟨data, 0, []⟩ = .ok (secs, s')) :
    ∀ w ∈ s'.writes, w.1 = "debug.bin" ∨ w.1 = "debug2.bin" := by
  simp only [parse_civ6save] at h
  split at h
  · cases h
  · rename_i result s8 hst
    split at h
    · cases h
      have hd := debugOnly_stages _ _ _ _ hst
      intro w hw
      rcases hd w hw with hmem | hn
      · cases hmem
      · exact hn
    · cases h

/-- C9 witness: the frame property instantiated on the doc_blob run at
its first recorded write. -/
theorem C9_writes_only_debug_dumps_witness :
    (("debug.bin", ([1, 2, 3, 4, 0, 0, 0, 0] : List Byte)) :
        String × List Byte).1 = "debug.bin" ∨
    (("debug.bin", ([1, 2, 3, 4, 0, 0, 0, 0] : List Byte)) :
        String × List Byte).1 = "debug2.bin" :=
  C9_writes_only_debug_dumps 30 doc_blob secs_blob
    ⟨doc_blob, 104, [("debug.bin", [1, 2, 3, 4, 0, 0, 0, 0]), ("debug2.bin", [])]⟩
    doc_blob_parse ("debug.bin", [1, 2, 3, 4, 0, 0, 0, 0]) (by simp)

/-- C10 counterexample: the claim quantifies over every input stream,
but on an exhausted stream with n = 1 the element parse yields None with
a None marker and the error-reporting line 536 calls
marker.pretty_str() on None, raising AttributeError instead of
returning a list. -/
theorem C10_raises_on_exhausted_stream :
    parse_n_elements 1 1 ⟨[], 0, []⟩ = .error (.attributeError "pretty_str") := rfl

/-- C10 (amended): whenever parse_n_elements returns a list (rather
than raising), that list has exactly n entries, one per requested
element, each a decoded GameElement or the None placeholder of a failed
element decode. -/
theorem C10_list_length (fuel n : Nat) (s : Stream)
    (l : List (Option GameElement)) (s' : Stream)
    (h : parse_n_elements fuel n s = .ok (l, s')) : l.length = n :=
  parse_n_elements_length fuel n s l s' h

/-- C10 witness: a concrete two-element parse returns a two-entry list. -/
theorem C10_list_length_witness :
    ([some (GameElement.boolean ⟨[0xAA, 0xAA, 0xAA, 0xAA], 1⟩ 1),
      some (GameElement.boolean ⟨[0xAB, 0xAB, 0xAB, 0xAB], 1⟩ 0)] :
        List (Option GameElement)).length = 2 :=
  C10_list_length 1 2
    ⟨[0xAA, 0xAA, 0xAA, 0xAA, 1, 0, 0, 0, 0, 0, 0, 0, 0, 0, 0, 0, 1, 0, 0, 0,
      0xAB, 0xAB, 0xAB, 0xAB, 1, 0, 0, 0, 0, 0, 0, 0, 0, 0, 0, 0, 0, 0, 0, 0],
      0, []⟩
    [some (GameElement.boolean ⟨[0xAA, 0xAA, 0xAA, 0xAA], 1⟩ 1),
     some (GameElement.boolean ⟨[0xAB, 0xAB, 0xAB, 0xAB], 1⟩ 0)]
    ⟨[0xAA, 0xAA, 0xAA, 0xAA, 1, 0, 0, 0, 0, 0, 0, 0, 0, 0, 0, 0, 1, 0, 0, 0,
      0xAB, 0xAB, 0xAB, 0xAB, 1, 0, 0, 0, 0, 0, 0, 0, 0, 0, 0, 0, 0, 0, 0, 0],
      40, []⟩ two_booleans_parse

end Tarification
